import Mathlib

/-!
Shallow embedding of `src/main.py` of the reddit_newsletter_gen repository.

Conventions used throughout:
* Python dictionaries are modelled by structures whose fields are `Option`-valued:
  `none` means the key is absent.  Direct indexing `d['k']` is `pyIndex`, which
  raises (`Except.error "KeyError: ..."`) on an absent key; `d.get('k', v)` is
  `Option.getD`.
* Fallible Python code (code that can raise) returns `Except String α`; an
  `Except.error` value models an exception propagating out of the function.
* HTTP responses are supplied by environment records (`FeedEnv`, `LLMWorld`,
  `SmtpWorld`): a field of such a record gives the observable outcome of one
  external call, so theorems quantify over every possible behaviour of the
  network peers.
* Machine integers do not overflow in the modelled code paths; scores are `Int`
  (the feed's score is a JSON integer, possibly negative).
-/

/-- Equality of `Except` values is decidable when both components' are;
needed so that witnesses can be checked by evaluation. -/
instance {ε α : Type} [DecidableEq ε] [DecidableEq α] : DecidableEq (Except ε α) := fun a b =>
  match a, b with
  | Except.error e₁, Except.error e₂ =>
    if h : e₁ = e₂ then isTrue (by rw [h]) else isFalse (fun hc => h (by injection hc))
  | Except.error _, Except.ok _ => isFalse (fun hc => Except.noConfusion hc)
  | Except.ok _, Except.error _ => isFalse (fun hc => Except.noConfusion hc)
  | Except.ok a₁, Except.ok a₂ =>
    if h : a₁ = a₂ then isTrue (by rw [h]) else isFalse (fun hc => h (by injection hc))

/-- `pre` is a character-wise prefix of the second argument. -/
def charsBeginWith : List Char → List Char → Bool
  | [], _ => true
  | _ :: _, [] => false
  | p :: ps, c :: cs => p = c && charsBeginWith ps cs

/-- Python `s.startswith(pre)` (and Lean's `String.startsWith`), expressed over
the underlying character lists so it evaluates inside the kernel. -/
def pyStartswith (s pre : String) : Bool := charsBeginWith pre.data s.data

/-- Python dict indexing `d[k]`: an absent key raises `KeyError`,
modelled as `Except.error msg`. -/
def pyIndex {α : Type} (o : Option α) (msg : String) : Except String α :=
  match o with
  | some a => Except.ok a
  | none => Except.error msg

/-- A Python `for` loop whose body may raise, collecting one result per element;
the first exception aborts the whole loop (models exception propagation). -/
def exMapM {α β : Type} (f : α → Except String β) : List α → Except String (List β)
  | [] => Except.ok []
  | x :: xs =>
    match f x with
    | Except.error e => Except.error e
    | Except.ok y =>
      match exMapM f xs with
      | Except.error e => Except.error e
      | Except.ok ys => Except.ok (y :: ys)

/-- Insert `x` into a list already sorted non-increasingly by `key`, keeping `x`
after strictly greater keys and before equal or smaller ones (so earlier list
elements with equal keys stay first — the stability guarantee of Python's
`sorted`). -/
def insertDesc {α : Type} (key : α → Int) (x : α) : List α → List α
  | [] => [x]
  | y :: ys => if key y ≤ key x then x :: y :: ys else y :: insertDesc key x ys

/-- `sorted(l, key=key, reverse=True)`: stable sort, non-increasing by `key`. -/
def sortDesc {α : Type} (key : α → Int) : List α → List α
  | [] => []
  | x :: xs => insertDesc key x (sortDesc key xs)

/-- One character of the URL character class of the extraction regex in
`get_post_comments` (`[a-zA-Z]|[0-9]|[$-_@.&+]|[!*\\(\\),]|%hh`; the `$-_`
ASCII range already covers digits and uppercase letters, and percent-escapes
are approximated by accepting `%` as an ordinary character). -/
def urlChar (c : Char) : Bool :=
  c.isAlpha || c.isDigit || ('$' ≤ c && c ≤ '_') || c = '@' || c = '.' || c = '&' ||
    c = '+' || c = '!' || c = '*' || c = '\\' || c = '(' || c = ')' || c = ',' || c = '%'

/-- Longest prefix of URL characters together with the rest of the input. -/
def takeUrlChars : List Char → List Char × List Char
  | [] => ([], [])
  | c :: cs =>
    if urlChar c then
      let p := takeUrlChars cs
      (c :: p.1, p.2)
    else ([], c :: cs)

/-- Try to match `http[s]?://<urlChar>+` at the head of the input; on success
return the matched URL and the remaining input. -/
def matchUrl (l : List Char) : Option (List Char × List Char) :=
  match l with
  | 'h' :: 't' :: 't' :: 'p' :: rest =>
    let schemeRest : List Char × List Char :=
      match rest with
      | 's' :: r => (['h', 't', 't', 'p', 's'], r)
      | _ => (['h', 't', 't', 'p'], rest)
    match schemeRest.2 with
    | ':' :: '/' :: '/' :: r3 =>
      let p := takeUrlChars r3
      if p.1.isEmpty then none
      else some (schemeRest.1 ++ [':', '/', '/'] ++ p.1, p.2)
    | _ => none
  | _ => none

/-- Leftmost, non-overlapping scan for URL matches (fuel-indexed; the fuel is
the input length, which bounds the number of scan steps). -/
def findUrlsAux : Nat → List Char → List (List Char)
  | 0, _ => []
  | _ + 1, [] => []
  | n + 1, c :: cs =>
    match matchUrl (c :: cs) with
    | some p => p.1 :: findUrlsAux n p.2
    | none => findUrlsAux n cs

/-- `re.findall` of the URL pattern over a comment body: every URL substring in
first-occurrence order, duplicates kept. -/
def findUrls (s : String) : List String :=
  (findUrlsAux s.data.length s.data).map (fun l => String.mk l)

/-! ## ContentSource: `EnhancedRedditScraper` -/

/-- The keys of one raw post dictionary (`post['data']`) that `main.py` ever
reads; `none` models an absent key. -/
structure PostFields where
  id : Option String
  title : Option String
  author : Option String
  permalink : Option String
  url : Option String
  selftext : Option String
  score : Option Int
  created_utc : Option Int
deriving DecidableEq, Repr

/-- One element of `response.json()['data']['children']`; `data` is `none` when
the `'data'` key is absent. -/
structure PostWrapper where
  data : Option PostFields
deriving DecidableEq, Repr

/-- The observable outcome of `GET {base}/top.json?t=day&limit=N`:
the status code and the parsed JSON body, collapsed to the only path the code
reads (`body['data']['children']`); `data_children = none` models a body in
which that key path is missing. -/
structure TopResponse where
  status : Nat
  data_children : Option (List PostWrapper)
deriving DecidableEq, Repr

/-- A post dictionary after the enrichment loop of `get_top_daily_posts`
added `reddit_url` and `external_url`. -/
structure ProcessedPost where
  base : PostFields
  reddit_url : String
  external_url : Option String
deriving DecidableEq, Repr

/-- Body of the enrichment loop of `get_top_daily_posts` (lines 51-59):
`post['data']` and `post_data['permalink']` are direct indexings that raise on
an absent key; `external_url` is set only when a `url` key is present and its
value does not start with the literal `https://reddit.com`. -/
def processPost (w : PostWrapper) : Except String ProcessedPost :=
  match w.data with
  | none => Except.error "KeyError: data"
  | some d =>
    match d.permalink with
    | none => Except.error "KeyError: permalink"
    | some permalink =>
      Except.ok
        { base := d
          reddit_url := "https://reddit.com" ++ permalink
          external_url :=
            match d.url with
            | some u => if pyStartswith u "https://reddit.com" then none else some u
            | none => none }

/-- Sort key used by `get_top_daily_posts` (`lambda x: x['score']`); the code
verifies presence of the key before this default is ever relevant. -/
def postScore (p : ProcessedPost) : Int := p.base.score.getD 0

/-- `EnhancedRedditScraper.get_top_daily_posts` (lines 31-61), as a function of
the received HTTP response.  A non-200 status returns `[]`; the body accesses
`['data']['children']`, the per-post enrichment, and the sort-key accesses are
*not* guarded by any `try`, so their `KeyError`s propagate. -/
def get_top_daily_posts (resp : TopResponse) : Except String (List ProcessedPost) :=
  if resp.status ≠ 200 then Except.ok []
  else
    match resp.data_children with
    | none => Except.error "KeyError: data"
    | some children =>
      match exMapM processPost children with
      | Except.error e => Except.error e
      | Except.ok processed =>
        match exMapM (fun p => pyIndex p.base.score "KeyError: score") processed with
        | Except.error e => Except.error e
        | Except.ok _ => Except.ok (sortDesc postScore processed)

/-- The keys of one raw comment dictionary (`comment['data']`) that `main.py`
ever reads. -/
structure CommentFields where
  author : Option String
  body : Option String
  score : Option Int
  created_utc : Option Int
deriving DecidableEq, Repr

/-- One element of the comment children array. -/
structure CommentWrapper where
  data : Option CommentFields
deriving DecidableEq, Repr

/-- The observable outcome of `GET {base}/comments/{id}.json`: the status code
and the parsed top-level JSON array.  Element `i` of `elems` is `some children`
when `json()[i]['data']['children']` exists and `none` when one of those keys
is missing; a too-short `elems` models the `IndexError` of `json()[1]`. -/
structure CommentsResponse where
  status : Nat
  elems : List (Option (List CommentWrapper))
deriving DecidableEq, Repr

/-- A comment dictionary kept by `get_post_comments` (it passed the
`'data' in comment and 'body' in comment['data']` guard) with the
`mentioned_urls` key added. -/
structure ProcessedComment where
  author : Option String
  body : String
  score : Option Int
  created_utc : Option Int
  mentioned_urls : List String
deriving DecidableEq, Repr

/-- Comment kept by the guard, enriched with the URLs found in its body. -/
def processComment (d : CommentFields) (b : String) : ProcessedComment :=
  { author := d.author, body := b, score := d.score, created_utc := d.created_utc
    mentioned_urls := findUrls b }

/-- The filtering loop of `get_post_comments` (lines 85-95): keep exactly the
children that have a `data` dict containing a `body`. -/
def extractComments (children : List CommentWrapper) : List ProcessedComment :=
  children.filterMap fun w =>
    match w.data with
    | some d =>
      match d.body with
      | some b => some (processComment d b)
      | none => none
    | none => none

/-- Sort key of `get_post_comments` (`lambda x: x['score']`). -/
def commentScore (c : ProcessedComment) : Int := c.score.getD 0

/-- The body of the `try` block of `get_post_comments` (lines 81-97):
`json()[1]` may raise `IndexError`, `['data']['children']` may raise
`KeyError`, the sort-key accesses may raise `KeyError`; on success the kept
comments are sorted non-increasingly by score and truncated to `limit`. -/
def parse_comments_body (elems : List (Option (List CommentWrapper))) (limit : Nat) :
    Except String (List ProcessedComment) :=
  match elems[1]? with
  | none => Except.error "IndexError: list index out of range"
  | some second =>
    match second with
    | none => Except.error "KeyError: data"
    | some children =>
      match exMapM (fun c => pyIndex c.score "KeyError: score") (extractComments children) with
      | Except.error e => Except.error e
      | Except.ok _ => Except.ok ((sortDesc commentScore (extractComments children)).take limit)

/-- `EnhancedRedditScraper.get_post_comments` (lines 63-101): a non-200 status
returns `[]`, and the whole parse is wrapped in
`try ... except (IndexError, KeyError): return []`, so this function is total. -/
def get_post_comments (resp : CommentsResponse) (limit : Nat) : List ProcessedComment :=
  if resp.status ≠ 200 then []
  else
    match parse_comments_body resp.elems limit with
    | Except.ok l => l
    | Except.error _ => []

/-- The environment of one collection run: the subreddit name and, for each
request the scraper can make, the response the feed returns (`top n` is the
response to `top.json?t=day&limit=n`, `comments pid` the response to
`comments/{pid}.json`). -/
structure FeedEnv where
  subreddit : String
  top : Nat → TopResponse
  comments : String → CommentsResponse

/-- `strftime('%Y-%m-%d %H:%M:%S UTC')` of `datetime.fromtimestamp(t, UTC)`,
modelled as an injective rendering of the timestamp; its exact text is not
relevant to any claim. -/
def formatUtc (t : Int) : String := toString t ++ " UTC"

/-! ## The content dictionary passed from collection to generation -/

/-- One comment dictionary inside the collected content
(built at lines 134-143); `Option` marks key presence for `_prepare_prompt`,
which indexes these keys directly. -/
structure CommentDictP where
  author : Option String
  text : Option String
  score : Option Int
  mentioned_urls : Option (List String)
  created_utc : Option String
deriving DecidableEq, Repr

/-- One post dictionary inside the collected content (built at lines 118-130);
`external_url` has two `Option` layers: the outer one is key presence, the
inner one is the stored value, which is Python `None` for an internal link. -/
structure PostDictP where
  title : Option String
  author : Option String
  score : Option Int
  reddit_url : Option String
  external_url : Option (Option String)
  text : Option String
  created_utc : Option String
  comments : Option (List CommentDictP)
deriving DecidableEq, Repr

/-- The dictionary returned by `collect_daily_content` (lines 149-153). -/
structure ContentDict where
  subreddit : Option String
  date : Option String
  posts : Option (List PostDictP)
deriving DecidableEq, Repr

/-- Projection of one kept comment into the collected dictionary
(lines 134-143, all reads via `.get` with defaults). -/
def mkContentComment (c : ProcessedComment) : CommentDictP :=
  { author := some ("u/" ++ c.author.getD "desconhecido")
    text := some c.body
    score := some (c.score.getD 0)
    mentioned_urls := some c.mentioned_urls
    created_utc := some (formatUtc (c.created_utc.getD 0)) }

/-- Projection of one processed post plus its fetched comments into the
collected dictionary (lines 118-144, all reads via `.get` with defaults;
`external_url` stores the value set by the enrichment loop, which is `None`
for an internal link). -/
def mkContentPost (p : ProcessedPost) (comments : List ProcessedComment) : PostDictP :=
  { title := some (p.base.title.getD "")
    author := some ("u/" ++ p.base.author.getD "desconhecido")
    score := some (p.base.score.getD 0)
    reddit_url := some p.reddit_url
    external_url := some p.external_url
    text := some (p.base.selftext.getD "")
    created_utc := some (formatUtc (p.base.created_utc.getD 0))
    comments := some (comments.map mkContentComment) }

/-- Body of the per-post loop of `collect_daily_content` (lines 117-147):
`post['id']` is a direct indexing (raises on an absent key); the subsequent
comment fetch is total.  The unconditional `time.sleep(1)` pacing delay has no
observable effect on the returned data and is not modelled. -/
def collectPost (env : FeedEnv) (comments_per_post : Nat) (post : ProcessedPost) :
    Except String PostDictP :=
  match post.base.id with
  | none => Except.error "KeyError: id"
  | some pid =>
    Except.ok (mkContentPost post (get_post_comments (env.comments pid) comments_per_post))

/-- `EnhancedRedditScraper.collect_daily_content` (lines 103-153); `today` is
the `datetime.now(UTC)` date string. -/
def collect_daily_content (env : FeedEnv) (post_limit comments_per_post : Nat)
    (today : String) : Except String ContentDict :=
  match get_top_daily_posts (env.top post_limit) with
  | Except.error e => Except.error e
  | Except.ok posts =>
    match exMapM (collectPost env comments_per_post) posts with
    | Except.error e => Except.error e
    | Except.ok collected =>
      Except.ok { subreddit := some env.subreddit, date := some today, posts := some collected }

/-- Score of a collected post as `_sorted by_` the pipeline (key presence
resolved; `collect_daily_content` always stores `some`). -/
def contentPostScore (p : PostDictP) : Int := p.score.getD 0

/-- Score of a collected comment. -/
def contentCommentScore (c : CommentDictP) : Int := c.score.getD 0

/-! ## PromptBuilder: `NewsletterGenerator._prepare_prompt` -/

/-- `', '.join(l)` — fixed-delimiter join. -/
def joinSep (sep : String) : List String → String
  | [] => ""
  | [x] => x
  | x :: xs => x ++ sep ++ joinSep sep xs

/-- The fixed instruction block appended by `_prepare_prompt` (lines 346-364),
with the configured newsletter title interpolated. -/
def instructionBlock (newsletter_title : String) : String :=
  "\nPor favor, elabore a newsletter seguindo estas diretrizes:\n\n" ++
  "1. **Título**: \"" ++ newsletter_title ++ "\"\n" ++
  "2. **Data**: Incluir a data atual no formato \"## [Data Atual]\"\n" ++
  "3. **Estrutura**: Organizar o conteúdo em 5 a 6 temas principais\n" ++
  "4. **Para cada tema**:\n" ++
  "   - Iniciar com um parágrafo introdutório envolvente\n" ++
  "   - Incluir números específicos e detalhes técnicos relevantes\n" ++
  "   - Referenciar usuários utilizando o formato \"**u/username**\"\n" ++
  "   - Destacar termos-chave e estatísticas em **negrito**\n" ++
  "   - Incluir links relevantes mencionados nos posts e comentários\n" ++
  "5. **Seção Final**: Concluir com uma seção intitulada \"Perspectivas Futuras\"\n" ++
  "6. **Formatação**: Utilizar Markdown para toda a formatação\n" ++
  "7. **Foco**: Priorizar precisão técnica e insights práticos\n" ++
  "8. **Idioma**: Escrever em português do Brasil, mantendo termos técnicos em inglês quando apropriado\n" ++
  "9. **Emojis**: Iniciar cada tema com um emoji relevante para aumentar o engajamento\n" ++
  "10. **Assinatura**: Finalizar com uma nota sobre a origem das informações\n"

/-- The comment lines of the prompt (lines 340-344).  Every key is read by
direct indexing in the source, so an absent key raises; key accesses happen in
source order (author, text, score, mentioned_urls). -/
def commentLine (c : CommentDictP) : Except String String :=
  match c.author with
  | none => Except.error "KeyError: author"
  | some cauthor =>
    match c.text with
    | none => Except.error "KeyError: text"
    | some ctext =>
      match c.score with
      | none => Except.error "KeyError: score"
      | some cscore =>
        match c.mentioned_urls with
        | none => Except.error "KeyError: mentioned_urls"
        | some urls =>
          Except.ok
            ("- " ++ cauthor ++ ": " ++ ctext ++ "\n" ++
             "  Score: " ++ toString cscore ++ "\n" ++
             (if urls.isEmpty then "" else
               "  Links mencionados: " ++ joinSep ", " urls ++ "\n"))

/-- The per-post section of the prompt (lines 330-344).  All keys are direct
indexings; `if post['external_url']:` and `if post['text']:` are Python
truthiness tests (`None` and `""` are falsy). -/
def postBlock (p : PostDictP) : Except String String :=
  match p.title with
  | none => Except.error "KeyError: title"
  | some title =>
    match p.author with
    | none => Except.error "KeyError: author"
    | some author =>
      match p.score with
      | none => Except.error "KeyError: score"
      | some score =>
        match p.reddit_url with
        | none => Except.error "KeyError: reddit_url"
        | some reddit_url =>
          match p.external_url with
          | none => Except.error "KeyError: external_url"
          | some ext =>
            match p.text with
            | none => Except.error "KeyError: text"
            | some text =>
              match p.comments with
              | none => Except.error "KeyError: comments"
              | some cs =>
                match exMapM commentLine cs with
                | Except.error e => Except.error e
                | Except.ok clines =>
                  Except.ok
                    ("\nPost: " ++ title ++ "\n" ++
                     "Autor: " ++ author ++ "\n" ++
                     "Score: " ++ toString score ++ "\n" ++
                     "Link do Reddit: " ++ reddit_url ++ "\n" ++
                     (match ext with
                      | some u => if u = "" then "" else "Link externo: " ++ u ++ "\n"
                      | none => "") ++
                     (if text = "" then "" else "Conteúdo: " ++ text ++ "\n") ++
                     "\nComentários principais:\n" ++ String.join clines)

/-- `NewsletterGenerator._prepare_prompt` (lines 311-365) with the
`NEWSLETTER_TITLE` configuration value passed explicitly (the source reads it
from the environment; it is fixed for a run).  Purely local computation: the
only failure mode is a `KeyError` from a direct dictionary indexing. -/
def prepare_prompt (newsletter_title : String) (content : ContentDict) :
    Except String String :=
  match content.subreddit with
  | none => Except.error "KeyError: subreddit"
  | some sub =>
    match content.date with
    | none => Except.error "KeyError: date"
    | some date =>
      match content.posts with
      | none => Except.error "KeyError: posts"
      | some posts =>
        match exMapM postBlock posts with
        | Except.error e => Except.error e
        | Except.ok blocks =>
          Except.ok
            ("Crie uma newsletter profissional para r/" ++ sub ++
             " baseada nas principais discussões de hoje (" ++ date ++ ").\n\n" ++
             "Conteúdo para análise:\n" ++
             String.join blocks ++ instructionBlock newsletter_title)

/-- `true` when every dictionary key that `commentLine` indexes is present. -/
def commentHasKeys (c : CommentDictP) : Bool :=
  c.author.isSome && c.text.isSome && c.score.isSome && c.mentioned_urls.isSome

/-- `true` when every dictionary key that `postBlock` indexes is present,
recursively including the comment dictionaries. -/
def postHasKeys (p : PostDictP) : Bool :=
  p.title.isSome && p.author.isSome && p.score.isSome && p.reddit_url.isSome &&
  p.external_url.isSome && p.text.isSome &&
  (match p.comments with
   | none => false
   | some cs => cs.all commentHasKeys)

/-- `true` when every dictionary key that `prepare_prompt` indexes is present,
recursively. -/
def contentHasKeys (c : ContentDict) : Bool :=
  c.subreddit.isSome && c.date.isSome &&
  (match c.posts with
   | none => false
   | some ps => ps.all postHasKeys)

/-! ## GenerationCoordinator: `NewsletterGenerator.generate_newsletter` -/

/-- The observable behaviour of the two LLM providers for one run:
`probeOk` is the boolean returned by `_check_deepseek_availability` (which
catches its own exceptions), `deepseek prompt` the outcome of
`_generate_with_deepseek` (an `Except.error` models a raised exception),
`backupConfigured` the truthiness of `OPENAI_BACKUP_API_KEY`, and
`openaiBackup prompt` the outcome of `_generate_with_openai`. -/
structure LLMWorld where
  probeOk : Bool
  deepseek : String → Except String String
  backupConfigured : Bool
  openaiBackup : String → Except String String

/-- Outcome of one `generate_newsletter` call: `result` is the returned text or
the message of the exception that escapes the call, and the two flags record
whether `_generate_with_deepseek` / `_generate_with_openai` were invoked. -/
structure GenResult where
  result : Except String String
  deepseekCalled : Bool
  backupCalled : Bool
deriving DecidableEq, Repr

/-- The backup path of `generate_newsletter` (lines 233-241): if a backup key
is configured, call OpenAI and raise `Todos os provedores LLM falharam` when it
too fails; otherwise raise
`API de backup não configurada e DeepSeek indisponível`. -/
def tryBackup (w : LLMWorld) (prompt : String) (deepseekCalled : Bool) : GenResult :=
  if w.backupConfigured then
    match w.openaiBackup prompt with
    | Except.ok text => { result := Except.ok text, deepseekCalled, backupCalled := true }
    | Except.error _ =>
      { result := Except.error "Todos os provedores LLM falharam"
        deepseekCalled, backupCalled := true }
  else
    { result := Except.error "API de backup não configurada e DeepSeek indisponível"
      deepseekCalled, backupCalled := false }

/-- The provider state machine of `generate_newsletter` (lines 225-241): probe
DeepSeek, use it if available, fall through to the backup path when the probe
fails or the DeepSeek call raises. -/
def providerFailover (w : LLMWorld) (prompt : String) : GenResult :=
  if w.probeOk then
    match w.deepseek prompt with
    | Except.ok text => { result := Except.ok text, deepseekCalled := true, backupCalled := false }
    | Except.error _ => tryBackup w prompt true
  else tryBackup w prompt false

/-- `NewsletterGenerator.generate_newsletter` (lines 213-241): prepare the
prompt (a `KeyError` here escapes before any provider is touched), then run the
failover state machine. -/
def generate_newsletter (w : LLMWorld) (newsletter_title : String) (content : ContentDict) :
    GenResult :=
  match prepare_prompt newsletter_title content with
  | Except.error e => { result := Except.error e, deepseekCalled := false, backupCalled := false }
  | Except.ok prompt => providerFailover w prompt

/-! ## Dispatcher: `send_email` -/

/-- `str.split(sep)` with an explicit one-character separator: Python semantics
— empty pieces are kept and the result is never the empty list
(`''.split(',') == ['']`). -/
def pySplit (sep : Char) : List Char → List (List Char)
  | [] => [[]]
  | c :: cs =>
    let r := pySplit sep cs
    if c = sep then [] :: r
    else
      match r with
      | [] => [[c]]
      | h :: t => (c :: h) :: t

/-- Characters removed by Python `str.strip()`. -/
def pySpace (c : Char) : Bool :=
  c = ' ' || c = '\t' || c = '\n' || c = '\x0d' || c = '\x0b' || c = '\x0c'

/-- Python `str.strip()`: drop leading and trailing whitespace. -/
def pyStrip (s : String) : String :=
  String.mk (((s.data.dropWhile pySpace).reverse.dropWhile pySpace).reverse)

/-- Line 414: `[email.strip() for email in email_to_string.split(',')]`. -/
def email_to_list_of (s : String) : List String :=
  (pySplit ',' s.data).map (fun cs => pyStrip (String.mk cs))

/-- The SMTP-related configuration values read from the environment
(lines 398-407).  `smtp_port` is already converted by `int(...)`, with its
default applied. -/
structure SmtpConfig where
  smtp_server : Option String
  smtp_port : Nat
  smtp_username : Option String
  smtp_password : Option String
  email_to : Option String
deriving Repr

/-- Python truthiness of an optional string: present and non-empty. -/
def truthyOpt (o : Option String) : Bool :=
  match o with
  | some s => !(s == "")
  | none => false

/-- The configuration guard of line 409:
`not (smtp_server and smtp_port and smtp_username and smtp_password and email_to_string)`. -/
def smtpConfigured (cfg : SmtpConfig) : Bool :=
  truthyOpt cfg.smtp_server && (cfg.smtp_port != 0) && truthyOpt cfg.smtp_username &&
  truthyOpt cfg.smtp_password && truthyOpt cfg.email_to

/-- The observable behaviour of the SMTP server for one delivery call:
whether the connection setup (`smtplib.SMTP(...)`), `starttls()` and `login()`
succeed, and whether `sendmail` to a given recipient succeeds (`false` models
a raised exception for that recipient). -/
structure SmtpWorld where
  connectOk : Bool
  starttlsOk : Bool
  loginOk : Bool
  sendOk : String → Bool

/-- Outcome of one `send_email` call: the returned boolean, whether an SMTP
session was opened, whether it was closed (`server.quit()`) before returning,
the recipients attempted and those whose `sendmail` succeeded, and which early
exit (if any) was taken. -/
structure SendResult where
  result : Bool
  opened : Bool
  closed : Bool
  attempted : List String
  succeeded : List String
  earlyError : Option String
deriving DecidableEq, Repr

/-- `send_email` (lines 387-552).  The per-recipient loop catches every
exception and continues (`continue`), so `attempted` is always the whole list
on that path and `succeeded` is the filter by per-recipient success; the
session-level handlers (`SMTPAuthenticationError`, `SMTPServerDisconnected`,
`SMTPException`, `Exception`) all `return False` *without* calling
`server.quit()` — the source has no `try/finally` — which is why `closed` is
`false` on those paths.  Markdown/HTML rendering of `newsletter_text` has no
observable effect on the delivery outcome and is not modelled beyond the
argument itself. -/
def send_email (newsletter_text : String) (cfg : SmtpConfig) (w : SmtpWorld) : SendResult :=
  if !(smtpConfigured cfg) then
    { result := false, opened := false, closed := false, attempted := [], succeeded := []
      earlyError := some "smtp_config_missing" }
  else
    let email_to_list := email_to_list_of (cfg.email_to.getD "")
    if email_to_list.isEmpty then
      { result := false, opened := false, closed := false, attempted := [], succeeded := []
        earlyError := some "no_recipients" }
    else if !w.connectOk then
      { result := false, opened := false, closed := false, attempted := [], succeeded := []
        earlyError := some "connect_failed" }
    else if !w.starttlsOk then
      { result := false, opened := true, closed := false, attempted := [], succeeded := []
        earlyError := some "starttls_failed" }
    else if !w.loginOk then
      { result := false, opened := true, closed := false, attempted := [], succeeded := []
        earlyError := some "auth_failed" }
    else
      let succeeded := email_to_list.filter w.sendOk
      { result := succeeded.length == email_to_list.length
        opened := true, closed := true
        attempted := email_to_list, succeeded := succeeded, earlyError := none }

/-! ## Spec-side definition for the external-URL claim -/

/-- Modelled from the spec: §4.1 requires `external_url` to be set "only if its
primary URL does not target the feed's own domain".  The feed itself lives at
`https://www.reddit.com/r/{subreddit}` (line 29), so a URL targets the feed's
own domain exactly when its host is reddit.com, reached in practice either
bare or via the `www` host. -/
def targets_feed_domain (u : String) : Bool :=
  pyStartswith u "https://reddit.com" || pyStartswith u "https://www.reddit.com"

/-! ## Concrete data used by witnesses and counterexamples -/

/-- A fully-populated raw post, as the feed would deliver it. -/
def postFieldsEx : PostFields :=
  { id := some "p1", title := some "T", author := some "A",
    permalink := some "/r/test/1", url := some "https://example.com/x",
    selftext := some "body", score := some 42, created_utc := some 100 }

/-- The post of `postFieldsEx` after enrichment. -/
def processedPostEx : ProcessedPost :=
  { base := postFieldsEx, reddit_url := "https://reddit.com/r/test/1",
    external_url := some "https://example.com/x" }

/-- A healthy one-post feed whose comment pages are empty two-element-less
arrays (parsed to `[]` comments via the caught `IndexError`). -/
def feedEnvEx : FeedEnv :=
  { subreddit := "test"
    top := fun _ => { status := 200, data_children := some [{ data := some postFieldsEx }] }
    comments := fun _ => { status := 200, elems := [] } }

/-- The content dictionary `collect_daily_content feedEnvEx … "2026-10-12"`
produces. -/
def contentEx : ContentDict :=
  { subreddit := some "test", date := some "2026-10-12"
    posts := some [mkContentPost processedPostEx []] }

/-- A feed whose `top.json` body lacks the `data` key. -/
def feedEnvBad : FeedEnv :=
  { subreddit := "test"
    top := fun _ => { status := 200, data_children := none }
    comments := fun _ => { status := 200, elems := [] } }

/-- A content dictionary with every key absent. -/
def emptyContent : ContentDict := { subreddit := none, date := none, posts := none }

/-- The prompt `prepare_prompt "T" contentEx` produces. -/
def promptEx : String :=
  match prepare_prompt "T" contentEx with
  | Except.ok s => s
  | Except.error _ => ""

/-- Provider world for the probe-fails/backup-succeeds scenario. -/
def llmWorldC1 : LLMWorld :=
  { probeOk := false, deepseek := fun _ => Except.error "down"
    backupConfigured := true, openaiBackup := fun _ => Except.ok "BACKUP TEXT" }

/-- Provider world for the probe-succeeds/primary-raises/no-backup scenario. -/
def llmWorldC2 : LLMWorld :=
  { probeOk := true, deepseek := fun _ => Except.error "boom"
    backupConfigured := false, openaiBackup := fun _ => Except.error "unused" }

/-- A fully-populated SMTP configuration with three recipients. -/
def smtpConfigEx : SmtpConfig :=
  { smtp_server := some "smtp.example.com", smtp_port := 587
    smtp_username := some "user", smtp_password := some "pw"
    email_to := some "a@example.com, b@example.com, c@example.com" }

/-- SMTP server behaviour where only the send to `b@example.com` raises. -/
def smtpWorldPartial : SmtpWorld :=
  { connectOk := true, starttlsOk := true, loginOk := true
    sendOk := fun r => !(r == "b@example.com") }

/-- SMTP server behaviour where `login()` raises after connect and TLS
succeed. -/
def smtpWorldAuthFail : SmtpWorld :=
  { connectOk := true, starttlsOk := true, loginOk := false, sendOk := fun _ => true }

/-- The raw post of the C6 counterexample: its `url` targets the feed's own
`www.reddit.com` host. -/
def wwwPostFields : PostFields :=
  { id := some "p2", title := some "T2", author := some "B",
    permalink := some "/r/test/comments/1/x",
    url := some "https://www.reddit.com/r/test/comments/1/x",
    selftext := some "", score := some 1, created_utc := some 0 }

/-- `true` exactly when the computation returned normally (did not raise). -/
def exceptIsOk {α : Type} : Except String α → Bool
  | Except.ok _ => true
  | Except.error _ => false

set_option maxRecDepth 100000

/-! ## Helper lemmas -/

theorem exMapM_ok_forallImage {α β : Type} {f : α → Except String β} :
    ∀ {xs : List α} {ys : List β}, exMapM f xs = Except.ok ys →
      List.Forall₂ (fun x y => f x = Except.ok y) xs ys := by
  intro xs
  induction xs with
  | nil =>
    intro ys h
    simp only [exMapM, Except.ok.injEq] at h
    subst h
    exact List.Forall₂.nil
  | cons x xs ih =>
    intro ys h
    simp only [exMapM] at h
    cases hfx : f x with
    | error e => rw [hfx] at h; simp at h
    | ok y =>
      rw [hfx] at h
      cases hrec : exMapM f xs with
      | error e => rw [hrec] at h; simp at h
      | ok ys' =>
        rw [hrec] at h
        simp only [Except.ok.injEq] at h
        subst h
        exact List.Forall₂.cons hfx (ih hrec)

theorem forallTwo_mem_right {α β : Type} {P : α → β → Prop} {b : β} :
    ∀ {xs : List α} {ys : List β}, List.Forall₂ P xs ys → b ∈ ys →
      ∃ a, a ∈ xs ∧ P a b := by
  intro xs ys h
  induction h with
  | nil => intro hb; cases hb
  | cons hab htail ih =>
    intro hb
    rcases List.mem_cons.mp hb with rfl | hb'
    · exact ⟨_, List.mem_cons_self _ _, hab⟩
    · rcases ih hb' with ⟨a, ha, hP⟩
      exact ⟨a, List.mem_cons_of_mem _ ha, hP⟩

theorem pairwise_of_forallTwo {α β : Type} {P : α → β → Prop} {R : α → α → Prop}
    {S : β → β → Prop} (hRS : ∀ a b a' b', P a a' → P b b' → R a b → S a' b') :
    ∀ {xs : List α} {ys : List β}, List.Forall₂ P xs ys → xs.Pairwise R → ys.Pairwise S := by
  intro xs ys h
  induction h with
  | nil => intro _; exact List.Pairwise.nil
  | cons hab htail ih =>
    intro hp
    rcases List.pairwise_cons.mp hp with ⟨hhead, htl⟩
    refine List.pairwise_cons.mpr ⟨?_, ih htl⟩
    intro b' hb'
    rcases forallTwo_mem_right htail hb' with ⟨b, hbmem, hPb⟩
    exact hRS _ _ _ _ hab hPb (hhead b hbmem)

theorem mem_insertDesc {α : Type} {key : α → Int} {x b : α} :
    ∀ {l : List α}, b ∈ insertDesc key x l → b = x ∨ b ∈ l := by
  intro l
  induction l with
  | nil => intro h; simp [insertDesc] at h; exact Or.inl h
  | cons y ys ih =>
    intro h
    simp only [insertDesc] at h
    split at h
    · rcases List.mem_cons.mp h with rfl | h'
      · exact Or.inl rfl
      · exact Or.inr h'
    · rcases List.mem_cons.mp h with rfl | h'
      · exact Or.inr (List.mem_cons_self _ _)
      · rcases ih h' with rfl | h''
        · exact Or.inl rfl
        · exact Or.inr (List.mem_cons_of_mem _ h'')

theorem pairwise_insertDesc {α : Type} {key : α → Int} {x : α} :
    ∀ {l : List α}, l.Pairwise (fun a b => key b ≤ key a) →
      (insertDesc key x l).Pairwise (fun a b => key b ≤ key a) := by
  intro l
  induction l with
  | nil => intro _; simp [insertDesc]
  | cons y ys ih =>
    intro hp
    rcases List.pairwise_cons.mp hp with ⟨hy, hys⟩
    simp only [insertDesc]
    split
    case isTrue hk =>
      refine List.pairwise_cons.mpr ⟨?_, hp⟩
      intro b hb
      rcases List.mem_cons.mp hb with rfl | hb'
      · exact hk
      · exact le_trans (hy b hb') hk
    case isFalse hk =>
      refine List.pairwise_cons.mpr ⟨?_, ih hys⟩
      intro b hb
      rcases mem_insertDesc hb with rfl | hb'
      · exact le_of_lt (lt_of_not_le hk)
      · exact hy b hb'

theorem pairwise_sortDesc {α : Type} (key : α → Int) :
    ∀ l : List α, (sortDesc key l).Pairwise (fun a b => key b ≤ key a) := by
  intro l
  induction l with
  | nil => simp [sortDesc]
  | cons x xs ih =>
    simp only [sortDesc]
    exact pairwise_insertDesc ih

theorem get_top_daily_posts_pairwise {resp : TopResponse} {l : List ProcessedPost}
    (h : get_top_daily_posts resp = Except.ok l) :
    l.Pairwise (fun a b => postScore b ≤ postScore a) := by
  unfold get_top_daily_posts at h
  split at h
  · simp only [Except.ok.injEq] at h
    subst h
    exact List.Pairwise.nil
  · cases hdc : resp.data_children with
    | none => rw [hdc] at h; simp at h
    | some children =>
      rw [hdc] at h
      simp only at h
      cases hm : exMapM processPost children with
      | error e => rw [hm] at h; simp at h
      | ok processed =>
        rw [hm] at h
        simp only at h
        cases hs : exMapM (fun p => pyIndex p.base.score "KeyError: score") processed with
        | error e => rw [hs] at h; simp at h
        | ok u =>
          rw [hs] at h
          simp only [Except.ok.injEq] at h
          subst h
          exact pairwise_sortDesc postScore processed

theorem parse_comments_body_ok {elems : List (Option (List CommentWrapper))} {limit : Nat}
    {l : List ProcessedComment} (h : parse_comments_body elems limit = Except.ok l) :
    ∃ pr, l = (sortDesc commentScore pr).take limit := by
  unfold parse_comments_body at h
  cases h1 : elems[1]? with
  | none => rw [h1] at h; simp at h
  | some second =>
    rw [h1] at h
    simp only at h
    cases second with
    | none => simp at h
    | some children =>
      simp only at h
      cases hm : exMapM (fun c => pyIndex c.score "KeyError: score") (extractComments children) with
      | error e => rw [hm] at h; simp at h
      | ok u =>
        rw [hm] at h
        simp only [Except.ok.injEq] at h
        exact ⟨extractComments children, h.symm⟩

theorem get_post_comments_pairwise (resp : CommentsResponse) (limit : Nat) :
    (get_post_comments resp limit).Pairwise (fun a b => commentScore b ≤ commentScore a) := by
  unfold get_post_comments
  split
  · exact List.Pairwise.nil
  · cases hp : parse_comments_body resp.elems limit with
    | error e => simp only [hp]; exact List.Pairwise.nil
    | ok l =>
      simp only [hp]
      rcases parse_comments_body_ok hp with ⟨pr, rfl⟩
      exact List.Pairwise.sublist (List.take_sublist _ _) (pairwise_sortDesc commentScore pr)

theorem get_post_comments_length (resp : CommentsResponse) (limit : Nat) :
    (get_post_comments resp limit).length ≤ limit := by
  unfold get_post_comments
  split
  · simp
  · cases hp : parse_comments_body resp.elems limit with
    | error e => simp [hp]
    | ok l =>
      simp only [hp]
      rcases parse_comments_body_ok hp with ⟨pr, rfl⟩
      exact List.length_take_le _ _

theorem collectPost_ok {env : FeedEnv} {cpp : Nat} {post : ProcessedPost} {p : PostDictP}
    (h : collectPost env cpp post = Except.ok p) :
    ∃ pid, post.base.id = some pid ∧
      p = mkContentPost post (get_post_comments (env.comments pid) cpp) := by
  unfold collectPost at h
  cases hid : post.base.id with
  | none => rw [hid] at h; simp at h
  | some pid =>
    rw [hid] at h
    simp only [Except.ok.injEq] at h
    exact ⟨pid, rfl, h.symm⟩

theorem collectPost_score {env : FeedEnv} {cpp : Nat} {post : ProcessedPost} {p : PostDictP}
    (h : collectPost env cpp post = Except.ok p) : contentPostScore p = postScore post := by
  rcases collectPost_ok h with ⟨pid, _, rfl⟩
  rfl

theorem exMapM_isOk_of_all {α β : Type} {f : α → Except String β} :
    ∀ {l : List α}, (∀ x ∈ l, exceptIsOk (f x) = true) →
      exceptIsOk (exMapM f l) = true := by
  intro l
  induction l with
  | nil => intro _; rfl
  | cons x xs ih =>
    intro hall
    have hx := hall x (List.mem_cons_self _ _)
    have hxs := ih (fun z hz => hall z (List.mem_cons_of_mem _ hz))
    simp only [exMapM]
    cases hfx : f x with
    | error e => rw [hfx] at hx; simp [exceptIsOk] at hx
    | ok y =>
      cases hrec : exMapM f xs with
      | error e => rw [hrec] at hxs; simp [exceptIsOk] at hxs
      | ok ys => rfl

theorem commentLine_ok {c : CommentDictP} (h : commentHasKeys c = true) :
    exceptIsOk (commentLine c) = true := by
  obtain ⟨ca, ct, csc, cmu, ccu⟩ := c
  cases ca with
  | none => simp [commentHasKeys] at h
  | some a =>
    cases ct with
    | none => simp [commentHasKeys] at h
    | some tx =>
      cases csc with
      | none => simp [commentHasKeys] at h
      | some sc =>
        cases cmu with
        | none => simp [commentHasKeys] at h
        | some urls => rfl

theorem postBlock_ok {p : PostDictP} (h : postHasKeys p = true) :
    exceptIsOk (postBlock p) = true := by
  obtain ⟨pt, pa, ps, pru, pe, ptx, pcu, pc⟩ := p
  cases pt with
  | none => simp [postHasKeys] at h
  | some title =>
    cases pa with
    | none => simp [postHasKeys] at h
    | some author =>
      cases ps with
      | none => simp [postHasKeys] at h
      | some score =>
        cases pru with
        | none => simp [postHasKeys] at h
        | some ru =>
          cases pe with
          | none => simp [postHasKeys] at h
          | some ext =>
            cases ptx with
            | none => simp [postHasKeys] at h
            | some tx =>
              cases pc with
              | none => simp [postHasKeys] at h
              | some cs =>
                simp only [postHasKeys, Option.isSome_some, Bool.true_and, Bool.and_self,
                  Option.getD_some] at h
                have hall : ∀ x ∈ cs, exceptIsOk (commentLine x) = true := fun x hx =>
                  commentLine_ok (List.all_eq_true.mp h x hx)
                have hlines := exMapM_isOk_of_all hall
                simp only [postBlock]
                cases hm : exMapM commentLine cs with
                | error e => rw [hm] at hlines; simp [exceptIsOk] at hlines
                | ok lines => rfl

theorem pySplit_ne_nil (sep : Char) : ∀ l : List Char, pySplit sep l ≠ [] := by
  intro l
  cases l with
  | nil => intro h; exact List.noConfusion h
  | cons c cs =>
    simp only [pySplit]
    split
    · intro h; exact List.noConfusion h
    · cases hr : pySplit sep cs with
      | nil => intro h; exact List.noConfusion h
      | cons a t => intro h; exact List.noConfusion h

theorem email_to_list_of_ne_nil (s : String) : email_to_list_of s ≠ [] := by
  unfold email_to_list_of
  intro h
  rw [List.map_eq_nil_iff] at h
  exact pySplit_ne_nil ',' s.data h

/-! ## Claim theorems -/

/-- Claim C1: for every prompt, if the DeepSeek availability probe returns
`false` and a backup provider is configured and its completion call succeeds,
then `generate_newsletter` returns the backup's completion text and
`_generate_with_deepseek` is never invoked. -/
theorem generate_newsletter_uses_backup_on_probe_failure
    (w : LLMWorld) (t : String) (c : ContentDict) (prompt text : String)
    (hp : prepare_prompt t c = Except.ok prompt)
    (hprobe : w.probeOk = false)
    (hcfg : w.backupConfigured = true)
    (hb : w.openaiBackup prompt = Except.ok text) :
    generate_newsletter w t c =
      { result := Except.ok text, deepseekCalled := false, backupCalled := true } := by
  simp [generate_newsletter, providerFailover, tryBackup, hp, hprobe, hcfg, hb]

/-- Witness for C1: a concrete world in which the probe fails and the backup
succeeds, on a concrete collected content. -/
theorem generate_newsletter_uses_backup_on_probe_failure_witness :
    generate_newsletter llmWorldC1 "T" contentEx =
      { result := Except.ok "BACKUP TEXT", deepseekCalled := false, backupCalled := true } :=
  generate_newsletter_uses_backup_on_probe_failure llmWorldC1 "T" contentEx promptEx
    "BACKUP TEXT" (by rfl) rfl rfl rfl

/-- Claim C2: for every prompt, if the probe returns `true`, the DeepSeek
completion call raises, and no backup provider is configured, then
`generate_newsletter` terminates with a hard failure — the exception raised at
line 241 escapes the call.  Its message is the code's rendering of
"all providers exhausted":
`API de backup não configurada e DeepSeek indisponível`. -/
theorem generate_newsletter_hard_failure_without_backup
    (w : LLMWorld) (t : String) (c : ContentDict) (prompt e : String)
    (hp : prepare_prompt t c = Except.ok prompt)
    (hprobe : w.probeOk = true)
    (hd : w.deepseek prompt = Except.error e)
    (hcfg : w.backupConfigured = false) :
    generate_newsletter w t c =
      { result := Except.error "API de backup não configurada e DeepSeek indisponível"
        deepseekCalled := true, backupCalled := false } := by
  simp [generate_newsletter, providerFailover, tryBackup, hp, hprobe, hd, hcfg]

/-- Witness for C2: a concrete world in which the probe succeeds, the DeepSeek
call raises, and no backup key is configured. -/
theorem generate_newsletter_hard_failure_without_backup_witness :
    generate_newsletter llmWorldC2 "T" contentEx =
      { result := Except.error "API de backup não configurada e DeepSeek indisponível"
        deepseekCalled := true, backupCalled := false } :=
  generate_newsletter_hard_failure_without_backup llmWorldC2 "T" contentEx promptEx
    "boom" (by rfl) rfl rfl rfl

/-- Counterexample to claim C3 ("no such failure ever propagates out of the
collection operations"): a 200 response to `top.json` whose JSON body lacks
the `data` key makes `get_top_daily_posts` raise `KeyError` — there is no
`try` around lines 48-61 — and the exception propagates through
`collect_daily_content`, aborting the whole run. -/
theorem collection_keyerror_propagates_counterexample :
    get_top_daily_posts { status := 200, data_children := none } =
      Except.error "KeyError: data" ∧
    collect_daily_content feedEnvBad 20 5 "2026-10-12" = Except.error "KeyError: data" :=
  ⟨rfl, rfl⟩

/-- Claim C3 as amended: a bad status code yields an empty result in both
fetch operations, and inside `get_post_comments` the index/key errors of the
comment parse are caught and degrade to an empty list for that unit; but
(per the counterexample) missing JSON keys in `get_top_daily_posts` are *not*
caught and abort the run. -/
theorem collection_soft_fail_amended (tr : TopResponse) (cr : CommentsResponse)
    (limit : Nat) (e : String) :
    (tr.status ≠ 200 → get_top_daily_posts tr = Except.ok []) ∧
    (cr.status ≠ 200 → get_post_comments cr limit = []) ∧
    (parse_comments_body cr.elems limit = Except.error e → get_post_comments cr limit = []) := by
  refine ⟨?_, ?_, ?_⟩
  · intro hs
    unfold get_top_daily_posts
    rw [if_pos hs]
  · intro hs
    unfold get_post_comments
    rw [if_pos hs]
  · intro hp
    unfold get_post_comments
    split
    · rfl
    · rw [hp]

/-- Witness for amended C3: concrete bad-status and short-body responses. -/
theorem collection_soft_fail_amended_witness :
    get_top_daily_posts { status := 404, data_children := none } = Except.ok [] ∧
    get_post_comments { status := 500, elems := [] } 5 = [] ∧
    get_post_comments { status := 200, elems := [] } 5 = [] := by
  have h1 := collection_soft_fail_amended { status := 404, data_children := none }
    { status := 500, elems := [] } 5 "IndexError: list index out of range"
  have h2 := collection_soft_fail_amended { status := 404, data_children := none }
    { status := 200, elems := [] } 5 "IndexError: list index out of range"
  exact ⟨h1.1 (by decide), h1.2.1 (by decide), h2.2.2 (by rfl)⟩

/-- Claim C4: every `ContentDict` returned by `collect_daily_content` has its
posts sorted non-increasingly by score, and each post's comment list is
independently sorted non-increasingly by score and no longer than the
configured per-post cap. -/
theorem collect_daily_content_sorted (env : FeedEnv) (post_limit comments_per_post : Nat)
    (today : String) (c : ContentDict)
    (h : collect_daily_content env post_limit comments_per_post today = Except.ok c) :
    ∃ l, c.posts = some l ∧
      l.Pairwise (fun a b => contentPostScore b ≤ contentPostScore a) ∧
      ∀ p ∈ l, ∃ cs, p.comments = some cs ∧
        cs.Pairwise (fun a b => contentCommentScore b ≤ contentCommentScore a) ∧
        cs.length ≤ comments_per_post := by
  unfold collect_daily_content at h
  cases htop : get_top_daily_posts (env.top post_limit) with
  | error e => rw [htop] at h; simp at h
  | ok posts =>
    rw [htop] at h
    simp only at h
    cases hmap : exMapM (collectPost env comments_per_post) posts with
    | error e => rw [hmap] at h; simp at h
    | ok collected =>
      rw [hmap] at h
      simp only [Except.ok.injEq] at h
      subst h
      have hf := exMapM_ok_forallImage hmap
      refine ⟨collected, rfl, ?_, ?_⟩
      · have hpw := get_top_daily_posts_pairwise htop
        refine pairwise_of_forallTwo ?_ hf hpw
        intro a b a' b' ha hb hR
        rw [collectPost_score ha, collectPost_score hb]
        exact hR
      · intro p hp
        rcases forallTwo_mem_right hf hp with ⟨post, _, hP⟩
        rcases collectPost_ok hP with ⟨pid, _, rfl⟩
        refine ⟨_, rfl, ?_, ?_⟩
        · refine List.Pairwise.map _ ?_
            (get_post_comments_pairwise (env.comments pid) comments_per_post)
          intro a b hab
          exact hab
        · rw [List.length_map]
          exact get_post_comments_length (env.comments pid) comments_per_post

/-- Witness for C4: the invariants hold of the content collected from the
concrete one-post feed. -/
theorem collect_daily_content_sorted_witness :
    ∃ l, contentEx.posts = some l ∧
      l.Pairwise (fun a b => contentPostScore b ≤ contentPostScore a) ∧
      ∀ p ∈ l, ∃ cs, p.comments = some cs ∧
        cs.Pairwise (fun a b => contentCommentScore b ≤ contentCommentScore a) ∧
        cs.length ≤ 5 :=
  collect_daily_content_sorted feedEnvEx 20 5 "2026-10-12" contentEx (by decide)

/-- Claim C5: for recipients `[x, y, z]` where the send to `y` raises and the
sends to `x` and `z` succeed, `send_email` attempts all three (the failure for
`y` does not abort the later sends), records `x` and `z` as sent, and returns
`false`. -/
theorem send_email_partial_failure
    (nt x y z : String) (cfg : SmtpConfig) (w : SmtpWorld)
    (hcfg : smtpConfigured cfg = true)
    (hlist : email_to_list_of (cfg.email_to.getD "") = [x, y, z])
    (hconn : w.connectOk = true) (htls : w.starttlsOk = true) (hlogin : w.loginOk = true)
    (hx : w.sendOk x = true) (hy : w.sendOk y = false) (hz : w.sendOk z = true) :
    (send_email nt cfg w).attempted = [x, y, z] ∧
    (send_email nt cfg w).succeeded = [x, z] ∧
    (send_email nt cfg w).result = false := by
  simp [send_email, hcfg, hlist, hconn, htls, hlogin, List.filter, hx, hy, hz]

/-- Witness for C5: three concrete recipients where only the middle send
raises. -/
theorem send_email_partial_failure_witness :
    (send_email "body" smtpConfigEx smtpWorldPartial).attempted =
      ["a@example.com", "b@example.com", "c@example.com"] ∧
    (send_email "body" smtpConfigEx smtpWorldPartial).succeeded =
      ["a@example.com", "c@example.com"] ∧
    (send_email "body" smtpConfigEx smtpWorldPartial).result = false :=
  send_email_partial_failure "body" "a@example.com" "b@example.com" "c@example.com"
    smtpConfigEx smtpWorldPartial (by decide) (by decide) rfl rfl rfl
    (by decide) (by decide) (by decide)

/-- Counterexample to claim C6 ("external_url is absent whenever the primary
URL targets the feed's own domain"): the feed is served from
`https://www.reddit.com` (line 29), so this post's URL targets the feed's own
domain, yet the `startswith('https://reddit.com')` test at line 55 fails for
the `www.` host and the code sets `external_url` to it (not absent). -/
theorem external_url_www_counterexample :
    targets_feed_domain "https://www.reddit.com/r/test/comments/1/x" = true ∧
    processPost { data := some wwwPostFields } = Except.ok
      { base := wwwPostFields, reddit_url := "https://reddit.com/r/test/comments/1/x"
        external_url := some "https://www.reddit.com/r/test/comments/1/x" } ∧
    some "https://www.reddit.com/r/test/comments/1/x" ≠ (none : Option String) :=
  ⟨by rfl, by decide, by decide⟩

/-- Claim C6 as amended: a fetched thread's `external_url` is set iff the raw
post has a `url` key whose value does not start with the literal string
`https://reddit.com`; URLs on the feed's own `www.reddit.com` host do not
start with that literal, so they are (incorrectly, per the spec's wording)
treated as external. -/
theorem processPost_external_url (d : PostFields) (p : ProcessedPost)
    (h : processPost { data := some d } = Except.ok p) :
    (p.external_url ≠ none ↔
      ∃ u, d.url = some u ∧ pyStartswith u "https://reddit.com" = false) := by
  simp only [processPost] at h
  cases hpl : d.permalink with
  | none => rw [hpl] at h; simp at h
  | some permalink =>
    rw [hpl] at h
    simp only [Except.ok.injEq] at h
    subst h
    cases hu : d.url with
    | none => simp [hu]
    | some u =>
      by_cases hsw : pyStartswith u "https://reddit.com" = true
      · simp [hu, hsw]
      · simp only [Bool.not_eq_true] at hsw
        simp [hu, hsw]

/-- Witness for amended C6: a concrete post with an external `url`. -/
theorem processPost_external_url_witness :
    processedPostEx.external_url ≠ none ↔
      ∃ u, postFieldsEx.url = some u ∧ pyStartswith u "https://reddit.com" = false :=
  processPost_external_url postFieldsEx processedPostEx (by decide)

/-- Counterexample to claim C7 ("missing dictionary keys are treated as empty
strings"): on a content dictionary with no keys at all, `_prepare_prompt`
raises `KeyError` at its first access (`content['subreddit']`, line 324)
instead of producing a prompt with empty strings; the same input with the
keys present but empty succeeds. -/
theorem prepare_prompt_keyerror_counterexample :
    prepare_prompt "T" emptyContent = Except.error "KeyError: subreddit" ∧
    exceptIsOk (prepare_prompt "T" emptyContent) = false ∧
    exceptIsOk (prepare_prompt "T"
      { subreddit := some "", date := some "", posts := some [] }) = true :=
  ⟨rfl, rfl, rfl⟩

/-- Claim C7 as amended: `_prepare_prompt` performs no fallible operation other
than direct dictionary indexing, so it returns normally on every input whose
dictionaries contain all the accessed keys; a missing key raises `KeyError`
rather than being treated as an empty string (the empty-string defaulting the
spec describes happens upstream, in `collect_daily_content`). -/
theorem prepare_prompt_ok_of_keys (t : String) (c : ContentDict)
    (h : contentHasKeys c = true) : exceptIsOk (prepare_prompt t c) = true := by
  obtain ⟨csub, cdate, cposts⟩ := c
  cases csub with
  | none => simp [contentHasKeys] at h
  | some sub =>
    cases cdate with
    | none => simp [contentHasKeys] at h
    | some date =>
      cases cposts with
      | none => simp [contentHasKeys] at h
      | some posts =>
        simp only [contentHasKeys, Option.isSome_some, Bool.true_and, Bool.and_self,
          Option.getD_some] at h
        have hall : ∀ x ∈ posts, exceptIsOk (postBlock x) = true := fun x hx =>
          postBlock_ok (List.all_eq_true.mp h x hx)
        have hblocks := exMapM_isOk_of_all hall
        simp only [prepare_prompt]
        cases hm : exMapM postBlock posts with
        | error e => rw [hm] at hblocks; simp [exceptIsOk] at hblocks
        | ok blocks => rfl

/-- Witness for amended C7: the concrete collected content has all keys and
the prompt build returns normally. -/
theorem prepare_prompt_ok_of_keys_witness :
    exceptIsOk (prepare_prompt "T" contentEx) = true :=
  prepare_prompt_ok_of_keys "T" contentEx (by decide)

/-- Claim C8: the prompt builder is pure and deterministic — with the
instruction-template/configuration constant fixed, identical content
dictionaries yield identical prompt strings. -/
theorem prepare_prompt_deterministic (t : String) (c₁ c₂ : ContentDict) (h : c₁ = c₂) :
    prepare_prompt t c₁ = prepare_prompt t c₂ := by rw [h]

/-- Witness for C8 at a concrete content dictionary. -/
theorem prepare_prompt_deterministic_witness :
    prepare_prompt "T" contentEx = prepare_prompt "T" contentEx :=
  prepare_prompt_deterministic "T" contentEx contentEx rfl

/-- Claim C9 is false of the code (code bug): `send_email` has no
`try/finally`, so when `login()` raises after the session was opened (connect
and TLS succeeded), the `except smtplib.SMTPAuthenticationError` handler at
line 541 returns `False` without ever calling `server.quit()` — the transport
session is left open on this exit path. -/
theorem send_email_leaks_session_on_auth_failure :
    (send_email "body" smtpConfigEx smtpWorldAuthFail).opened = true ∧
    (send_email "body" smtpConfigEx smtpWorldAuthFail).closed = false ∧
    (send_email "body" smtpConfigEx smtpWorldAuthFail).result = false := by decide

/-- Claim C10: splitting any `EMAIL_TO` string on `,` and stripping the pieces
yields a non-empty list (Python's `split` never returns `[]`), so the
`if not email_to_list` branch of `send_email` (line 417) can never be taken:
no call, whatever the configuration and server behaviour, exits through the
"no recipient address configured" error. -/
theorem no_recipients_branch_unreachable :
    (∀ s : String, email_to_list_of s ≠ []) ∧
    (∀ (nt : String) (cfg : SmtpConfig) (w : SmtpWorld),
      (send_email nt cfg w).earlyError ≠ some "no_recipients") := by
  refine ⟨email_to_list_of_ne_nil, ?_⟩
  intro nt cfg w
  have hne := email_to_list_of_ne_nil (cfg.email_to.getD "")
  have hempty : (email_to_list_of (cfg.email_to.getD "")).isEmpty = false := by
    cases hl : (email_to_list_of (cfg.email_to.getD "")).isEmpty with
    | false => rfl
    | true => exact absurd (List.isEmpty_iff.mp hl) hne
  simp only [send_email, hempty]
  split
  · simp
  · split
    · simp_all
    · split
      · simp
      · split
        · simp
        · split
          · simp
          · simp
